import Mathlib

/-
Shallow embedding of icoscp/cpb/dobj.py (class Dobj) from gareth-j/pylib,
together with the parts of its collaborators that the verified properties
need: the Python struct module's unpack_from semantics, a pandas DataFrame
model restricted to the operations the code performs, and the type-mapping
module icoscp/cpb/dtype_dict.py (not shipped under src/, modelled from the
specification).  Machine integers are modelled as Nat/Int; a raw byte
buffer is a List Nat of byte values; network and filesystem effects are
passed in as explicit environments.
-/

set_option autoImplicit false

deriving instance DecidableEq for Except

namespace Icoscp

/-- Python str.split for a one-character separator, over char lists; the
empty string splits to ['']. -/
def splitChars (sep : Char) : List Char → List (List Char)
  | [] => [[]]
  | c :: cs =>
    let r := splitChars sep cs
    if c = sep then [] :: r
    else match r with
      | [] => [[c]]
      | g :: gs => (c :: g) :: gs

/-- Python str.isspace characters relevant here. -/
def isSpaceChar (c : Char) : Bool :=
  c == ' ' || c == '\t' || c == '\n' || c == '\r'

/-- Python str.strip(). -/
def stripStr (s : String) : String :=
  ⟨((s.data.dropWhile isSpaceChar).reverse.dropWhile isSpaceChar).reverse⟩

/-- Python str.upper() (the column names are ASCII). -/
def upperStr (s : String) : String :=
  ⟨s.data.map Char.toUpper⟩

/-- Endianness tag of an unpack plan ('big' is the Dobj default). -/
inductive Endian
  | big
  | little
deriving DecidableEq

/-- Modelled from the spec: decode primitive kinds of the Type Mapping Table
(icoscp/cpb/dtype_dict.py, which is repository code not present under src/).
The spec lists the fixed-width kinds INT32, INT64, FLOAT32, FLOAT64, CHAR16;
dobj.py compares schema entries against the CHAR kind for flag columns. -/
inductive DecodeKind
  | int32
  | int64
  | float32
  | float64
  | char16
deriving DecidableEq

/-- Wire width in bytes of one scalar of a decode kind. -/
def width : DecodeKind → Nat
  | .int32 => 4
  | .int64 => 8
  | .float32 => 4
  | .float64 => 8
  | .char16 => 2

/-- Modelled from the spec: dtype_dict.mapDataTypesCP, the pure lookup from an
external logical type name to a decode primitive; an unknown name has no
decode rule (dobj.py turns that into Exception('dtype_dict')). -/
def mapDataTypesCP (valFormat : String) : Option DecodeKind :=
  if valFormat = "int32" then some .int32
  else if valFormat = "int64" then some .int64
  else if valFormat = "float32" then some .float32
  else if valFormat = "float64" then some .float64
  else if valFormat = "char16" then some .char16
  else none

/-- Modelled from the spec: dtype_dict.structTypes emits one repeat-count
token (N repeats of the primitive's wire width) per column. -/
def structTypes (k : DecodeKind) (n : Nat) : DecodeKind × Nat := (k, n)

/-- A compiled struct format: one endianness marker shared by the whole plan,
followed by the flat token sequence. -/
abbrev StructFmt := Endian × List (DecodeKind × Nat)

/-- Python struct.calcsize of a token sequence (the endianness marker
disables alignment, so the size is the plain sum of token widths). -/
def calcsizeTokens (toks : List (DecodeKind × Nat)) : Nat :=
  (toks.map (fun t => t.2 * width t.1)).sum

/-- Big-endian unsigned integer value of a byte list. -/
def beNat (bs : List Nat) : Nat :=
  bs.foldl (fun a b => a * 256 + b % 256) 0

/-- Little-endian unsigned integer value of a byte list. -/
def leNat (bs : List Nat) : Nat :=
  beNat bs.reverse

/-- Two's-complement reading of a w-byte unsigned value, as struct does for
signed integer format characters. -/
def toSigned (w : Nat) (n : Nat) : Int :=
  if n < 2 ^ (8 * w - 1) then (n : Int) else (n : Int) - 2 ^ (8 * w)

/-- Value of one scalar decoded from its bytes.  Integer kinds are read as
signed two's complement; float kinds keep their raw IEEE bit pattern (no
verified property inspects a float's arithmetic value, only equality of
identically decoded buffers); CHAR16 is the unsigned UTF-16 code unit. -/
def decodeScalar (e : Endian) (k : DecodeKind) (bs : List Nat) : Int :=
  let u : Nat := match e with
    | .big => beNat bs
    | .little => leNat bs
  match k with
  | .int32 => toSigned 4 u
  | .int64 => toSigned 8 u
  | .float32 => (u : Int)
  | .float64 => (u : Int)
  | .char16 => (u : Int)

/-- Decode n consecutive scalars of one kind from the front of a buffer. -/
def decodeRun (e : Endian) (k : DecodeKind) (n : Nat) (bs : List Nat) : List Int :=
  match n with
  | 0 => []
  | m + 1 => decodeScalar e k (bs.take (width k)) :: decodeRun e k m (bs.drop (width k))

/-- Decode a whole token sequence from the front of a buffer. -/
def decodeTokens (e : Endian) : List (DecodeKind × Nat) → List Nat → List Int
  | [], _ => []
  | t :: ts, bs => decodeRun e t.1 t.2 bs ++ decodeTokens e ts (bs.drop (t.2 * width t.1))

/-- Python struct.unpack_from(fmt, buffer): requires the buffer to hold at
least calcsize(fmt) bytes and raises struct.error otherwise; a longer buffer
is accepted and its trailing bytes are ignored. -/
def unpackFrom (fmt : StructFmt) (raw : List Nat) : Option (List Int) :=
  if calcsizeTokens fmt.2 ≤ raw.length then some (decodeTokens fmt.1 fmt.2 raw) else none

/-- Scalar cell of the decoded table.  int also carries float bit patterns
(see decodeScalar); char is the one-character string produced by chr();
the three tagged constructors model the pandas datetime post-processing. -/
inductive Value
  | int (i : Int)
  | char (c : Nat)
  | timestampMs (i : Int)
  | dateDays (i : Int)
  | timeOfDay (i : Int)
deriving DecidableEq

/-- A pandas DataFrame, restricted to what dobj.py does with one: an ordered
list of named, column-major columns. -/
abbrev Column := String × List Value

abbrev DataFrame := List Column

/-- pandas df.empty: true when the frame has no rows (a frame with columns
but zero rows is also empty). -/
def dfEmpty (df : DataFrame) : Bool :=
  df.all (fun c => c.2.isEmpty)

/-- pandas df[name] = lst: replaces an existing column in place, otherwise
appends a new one. -/
def dfSet (df : DataFrame) (name : String) (vals : List Value) : DataFrame :=
  if df.any (fun c => c.1 = name) then
    df.map (fun c => if c.1 = name then (name, vals) else c)
  else df ++ [(name, vals)]

/-- Column lookup by name (first occurrence). -/
def dfLookup (df : DataFrame) (name : String) : Option (List Value) :=
  (df.find? (fun c => c.1 = name)).map Prod.snd

/-- pandas df[nameList]: the named columns in the list's order; a missing
name raises KeyError (modelled as none). -/
def dfReindex (df : DataFrame) : List String → Option DataFrame
  | [] => some []
  | n :: ns =>
    match dfLookup df n, dfReindex df ns with
    | some v, some rest => some ((n, v) :: rest)
    | _, _ => none

/-- Map a function over the cells of the named column, if present. -/
def dfMapCol (df : DataFrame) (name : String) (f : Value → Value) : DataFrame :=
  df.map (fun c => if c.1 = name then (c.1, c.2.map f) else c)

end Icoscp

namespace Icoscp

/-- One row of the schema-detail metadata query (cpbGetSchemaDetail): column
name, declared value-format token, the "is pattern" flag as the string the
store returns ('true' / other / null), and the object-format URI. -/
structure DeclRow where
  colName : String
  valFormat : String
  isRegex : Option String
  objFormat : String
deriving DecidableEq

/-- A DeclRow together with its pandas index label (dobj.py drops rows by
label, so the label is part of the frame model). -/
structure SchemaRow where
  label : Nat
  colName : String
  valFormat : String
  isRegex : Option String
  objFormat : String
deriving DecidableEq

/-- The single row returned by the cpbGetInfo metadata query. -/
structure Info1Row where
  dobjUri : String
  objSpec : String
  columnNamesRaw : Option String
  nRows : Nat
deriving DecidableEq

/-- info1 after dobj.py has replaced the raw bracketed columnNames string
with a clean list (or left it null). -/
structure Info1Parsed where
  dobjUri : String
  objSpec : String
  columnNames : Option (List String)
  nRows : Nat
deriving DecidableEq

/-- Results the external metadata collaborator returns for one identifier:
none for info1 models a zero-row cpbGetInfo result; citation '' is the falsy
citation; station is the opaque dobjStation payload. -/
structure MetaEnv where
  info1 : Option Info1Row
  schemaRows : List DeclRow
  citation : String
  station : Nat
deriving DecidableEq

/-- The request body dobj.py assembles for the remote tabular endpoint. -/
structure JsonReq where
  tableId : String
  schemaColumns : List DecodeKind
  size : Nat
  columnNumbers : List Nat
  subFolder : String
deriving DecidableEq

/-- Python-level failures the embedded code can raise. -/
inductive PyErr
  | dtypeDict
  | indexError
  | keyError
  | unpackError
  | structError
  | httpError
  | netError
  | unboundLocal
  | typeError
deriving DecidableEq

/-- The mutable attributes of one Dobj handle. -/
structure DobjState where
  dobj : String
  dobjSet : Bool
  dobjValid : Bool
  colSelected : Option (List Nat)
  endian : Endian
  dtconvert : Bool
  datapersistent : Bool
  info1 : Option Info1Parsed
  info2 : List SchemaRow
  colSchema : List DecodeKind
  dtypeStruct : Option StructFmt
  json : Option JsonReq
  islocal : Option Bool
  citation : Option String
  info3 : Option Nat
  data : DataFrame
deriving DecidableEq

/-- Attribute values Dobj.__init__ assigns before the identifier is set
(the unset _dobj attribute is modelled as the empty string). -/
def initState : DobjState :=
  { dobj := ""
    dobjSet := false
    dobjValid := false
    colSelected := none
    endian := .big
    dtconvert := true
    datapersistent := true
    info1 := none
    info2 := []
    colSchema := []
    dtypeStruct := none
    json := none
    islocal := none
    citation := none
    info3 := none
    data := [] }

/-- Relabel a row list with consecutive labels starting at i. -/
def renumberFrom (i : Nat) : List SchemaRow → List SchemaRow
  | [] => []
  | r :: rs => {r with label := i} :: renumberFrom (i + 1) rs

/-- Attach fresh pandas RangeIndex labels 0..n-1, as a sparql result frame
or pd.concat(ignore_index=True) carries. -/
def renumber (rows : List SchemaRow) : List SchemaRow :=
  renumberFrom 0 rows

/-- Label the schema-detail rows with their RangeIndex, starting at i. -/
def attachFrom (i : Nat) : List DeclRow → List SchemaRow
  | [] => []
  | r :: rs => ⟨i, r.colName, r.valFormat, r.isRegex, r.objFormat⟩ :: attachFrom (i + 1) rs

/-- Labels of the freshly returned schema-detail frame. -/
def attachLabels (rows : List DeclRow) : List SchemaRow :=
  attachFrom 0 rows

/-- dobj.py lines 219-225: strip the surrounding brackets, remove all double
quotes, split on commas, strip surrounding whitespace of each entry. -/
def parseColumnNames (raw : String) : List String :=
  let s1 := (raw.data.drop 1).dropLast
  let s2 := s1.filter (fun c => c != '"')
  (splitChars (',') s2).map (fun g => stripStr ⟨g⟩)

/-- Expansion of one regex schema row: one new concrete row per realized
name the pattern matches, carrying the pattern's valFormat and the matched
name, with isRegex cleared.  The regex test re.match is passed in as a
Boolean matcher parameter. -/
def regexMatches (rmatch : String → String → Bool) (r : SchemaRow)
    (colList : List String) : List SchemaRow :=
  (colList.filter (fun c => rmatch r.colName c)).map
    (fun c => {r with colName := c, isRegex := none})

/-- dobj.py lines 230-245: when any isRegex cell is non-null, append one row
per (regex row, matching realized name) pair via pd.concat(ignore_index)
and then drop the original regex rows; the filter keeps the concat labels. -/
def expandRegex (rmatch : String → String → Bool) (info2 : List SchemaRow)
    (colList : List String) : List SchemaRow :=
  if info2.countP (fun r => r.isRegex.isSome) ≠ 0 then
    let appended := (info2.filter (fun r => r.isRegex = some ("true"))).flatMap
      (fun r => regexMatches rmatch r colList)
    (renumber (info2 ++ appended)).filter (fun r => r.isRegex ≠ some ("true"))
  else info2

/-- Loop body of dobj.py lines 249-251: enumerate snapshotted column names
by position i, but DataFrame.drop removes by pandas label i and raises
KeyError when no row carries that label. -/
def dropAbsentGo (colList : List String) :
    List SchemaRow → List String → Nat → Except PyErr (List SchemaRow)
  | cur, [], _ => .ok cur
  | cur, c :: rest, i =>
    if c ∈ colList then dropAbsentGo colList cur rest (i + 1)
    else if cur.any (fun r => r.label = i) then
      dropAbsentGo colList (cur.filter (fun r => r.label ≠ i)) rest (i + 1)
    else .error .keyError

/-- dobj.py lines 247-251: remove declared columns absent from colList. -/
def dropAbsent (info2 : List SchemaRow) (colList : List String) :
    Except PyErr (List SchemaRow) :=
  dropAbsentGo colList info2 (info2.map (fun r => r.colName)) 0

/-- Python's strict lexicographic order on code points, which pandas
sort_values applies to the object-dtype name column. -/
def charListLt : List Char → List Char → Bool
  | [], [] => false
  | [], _ :: _ => true
  | _ :: _, [] => false
  | a :: as, b :: bs => if a < b then true else if b < a then false else charListLt as bs

/-- Code-point lexicographic a ≤ b on strings. -/
def strLe (a b : String) : Bool := !(charListLt b.data a.data)

/-- Insert a row into a name-sorted row list, after all rows whose name is
less than or equal (so the overall sort is stable). -/
def insertSorted (r : SchemaRow) : List SchemaRow → List SchemaRow
  | [] => [r]
  | x :: xs => if strLe x.colName r.colName then x :: insertSorted r xs else r :: x :: xs

/-- dobj.py line 255: sort_values(by='colName') to match the wire layout
(stable insertion sort; the verified scenarios have pairwise distinct
names, for which every sort agrees). -/
def sortByName : List SchemaRow → List SchemaRow
  | [] => []
  | r :: rs => insertSorted r (sortByName rs)

/-- Last path segment, Python s.split('/')[-1]. -/
def lastSeg (s : String) : String :=
  ((splitChars ('/') s.data).map (fun g => (⟨g⟩ : String))).getLastD ("")

/-- dobj.py lines 216-251, the optional-columns branch of __getPayload:
parse the bracketed name list, expand regex columns against it, drop the
declared literal columns absent from it; a null columnNames leaves the
schema rows untouched. -/
def parseStage (rmatch : String → String → Bool) (i1 : Info1Row)
    (info2₀ : List SchemaRow) :
    Except PyErr (Option (List String) × List SchemaRow) :=
  match i1.columnNamesRaw with
  | none => Except.ok (none, info2₀)
  | some rawStr => do
      let colList := parseColumnNames rawStr
      let dropped ← dropAbsent (expandRegex rmatch info2₀ colList) colList
      Except.ok (some colList, dropped)

/-- dobj.py lines 258-259: a falsy previous selection (None or the empty
list) defaults to all columns of the sorted schema. -/
def selOrAll (cs : Option (List Nat)) (n : Nat) : List Nat :=
  match cs with
  | none => List.range n
  | some [] => List.range n
  | some l => l

/-- Loop of dobj.py lines 264-269: map each sorted column's valFormat
through the type table; the first unknown format raises
Exception('dtype_dict'). -/
def mapSchema : List SchemaRow → Except PyErr (List DecodeKind)
  | [] => .ok []
  | r :: rs =>
    match mapDataTypesCP r.valFormat with
    | some k => (mapSchema rs).map (fun ks => k :: ks)
    | none => .error .dtypeDict

/-- Loop of dobj.py lines 271-273: one struct token per selected column
index; an index outside _colSchema raises IndexError. -/
def mapToks (colSchema : List DecodeKind) (n : Nat) :
    List Nat → Except PyErr (List (DecodeKind × Nat))
  | [] => .ok []
  | d :: ds =>
    match colSchema[d]? with
    | some k => (mapToks colSchema n ds).map (fun ts => structTypes k n :: ts)
    | none => .error .indexError

/-- The fields __getPayload computes on its successful (valid) branch. -/
structure PayloadDerived where
  info1 : Info1Parsed
  info2 : List SchemaRow
  colSelected : List Nat
  colSchema : List DecodeKind
  dtypeStruct : StructFmt
  json : JsonReq
  citation : String
deriving DecidableEq

/-- Computation of Dobj.__getPayload (lines 190-293) after the identifier is
known to be set, as a function of exactly the state it reads: the previous
column selection and the endianness.  Returns ok none when the cpbGetInfo
query yields zero rows (the handle becomes Invalid). -/
def payloadCore (menv : MetaEnv) (rmatch : String → String → Bool)
    (colSelected : Option (List Nat)) (endian : Endian) :
    Except PyErr (Option PayloadDerived) :=
  match menv.info1 with
  | none => .ok none
  | some i1 => do
    let parsed ← parseStage rmatch i1 (attachLabels menv.schemaRows)
    let info2s := sortByName parsed.2
    let sel := selOrAll colSelected info2s.length
    let colSchema ← mapSchema info2s
    let toks ← mapToks colSchema i1.nRows sel
    let firstRow ← (match info2s with
      | [] => Except.error PyErr.indexError
      | r :: _ => Except.ok r)
    let cit := if menv.citation = "" then "no citation available ..." else menv.citation
    Except.ok (some
      { info1 := ⟨i1.dobjUri, i1.objSpec, parsed.1, i1.nRows⟩
        info2 := info2s
        colSelected := sel
        colSchema := colSchema
        dtypeStruct := (endian, toks)
        json :=
          { tableId := lastSeg i1.dobjUri
            schemaColumns := colSchema
            size := i1.nRows
            columnNumbers := sel
            subFolder := lastSeg firstRow.objFormat }
        citation := cit })

/-- Overwrite the state fields __getPayload assigns on its valid branch. -/
def applyDerived (s : DobjState) (d : PayloadDerived) : DobjState :=
  { s with
    info1 := some d.info1
    info2 := d.info2
    colSelected := some d.colSelected
    colSchema := d.colSchema
    dtypeStruct := some d.dtypeStruct
    json := some d.json
    citation := some d.citation
    dobjValid := true }

/-- Dobj.__getPayload: no-op when no identifier is set; marks the handle
invalid on a zero-row metadata result; otherwise installs the derived
schema, plan, request payload and citation and marks the handle valid. -/
def getPayload (menv : MetaEnv) (rmatch : String → String → Bool)
    (s : DobjState) : Except PyErr DobjState :=
  if s.dobjSet = false then .ok s
  else match payloadCore menv rmatch s.colSelected s.endian with
    | .error e => .error e
    | .ok none => .ok {s with info1 := none, dobjValid := false}
    | .ok (some d) => .ok (applyDerived s d)

/-- The Dobj.dobj property setter: a falsy identifier only clears _dobjSet;
otherwise it stores the identifier, sets _dobjSet and runs __getPayload. -/
def setDobj (menv : MetaEnv) (rmatch : String → String → Bool) (d : String)
    (s : DobjState) : Except PyErr DobjState :=
  if d = "" then .ok {s with dobjSet := false}
  else getPayload menv rmatch {s with dobj := d, dobjSet := true}

end Icoscp

namespace Icoscp

/-- Python chr(i): valid for code points 0..0x10FFFF, otherwise ValueError
(which the surrounding try of __unpackRawData turns into
Exception('_unpackRawData')). -/
def pyChr (i : Int) : Except PyErr Value :=
  if 0 ≤ i ∧ i ≤ 1114111 then .ok (.char i.toNat) else .error .unpackError

/-- The list comprehension [chr(i) for i in lst] of dobj.py line 350. -/
def mapChr : List Int → Except PyErr (List Value)
  | [] => .ok []
  | i :: is =>
    match pyChr i with
    | .ok v => (mapChr is).map (fun vs => v :: vs)
    | .error e => .error e

/-- Column loop of dobj.py lines 346-351: slice the idx-th run of rows
scalars, convert through chr for a CHAR column, and assign it to the frame
under the column's name; an out-of-range index into _colSchema or
_info2.iloc raises inside the try and becomes Exception('_unpackRawData'). -/
def buildDfGo (data : List Int) (rows : Nat) (colSchema : List DecodeKind)
    (info2 : List SchemaRow) :
    Nat → List Nat → DataFrame → Except PyErr DataFrame
  | _, [], df => .ok df
  | idx, col :: rest, df =>
    match colSchema[col]?, info2[col]? with
    | some k, some r =>
      let lst := (data.drop (idx * rows)).take rows
      if k = .char16 then
        match mapChr lst with
        | .ok vals =>
            buildDfGo data rows colSchema info2 (idx + 1) rest (dfSet df r.colName vals)
        | .error e => .error e
      else
        buildDfGo data rows colSchema info2 (idx + 1) rest
          (dfSet df r.colName (lst.map Value.int))
    | _, _ => .error .unpackError

/-- pd.to_datetime(unit='ms') on the TIMESTAMP column (numeric cells; on a
non-numeric column pandas would raise, a case none of the decode flows
verified here produces). -/
def toTsMs : Value → Value
  | .int i => .timestampMs i
  | v => v

/-- pd.to_datetime(unit='D') on the date column. -/
def toDateDays : Value → Value
  | .int i => .dateDays i
  | v => v

/-- The two-step time conversion of dobj.py lines 370-374: keep only the
time-of-day component of the seconds value. -/
def toTimeOfDay : Value → Value
  | .int i => .timeOfDay (i % 86400)
  | v => v

/-- The three name-dispatched datetime conversions of dobj.py lines 361-374,
each applied only when the column exists and _dtconvert is set. -/
def postProcess (dtconvert : Bool) (df : DataFrame) : DataFrame :=
  if dtconvert then
    dfMapCol (dfMapCol (dfMapCol df ("TIMESTAMP") toTsMs) ("date") toDateDays)
      ("time") toTimeOfDay
  else df

/-- Dobj.__unpackRawData (lines 337-385) as a function of the state fields
it reads.  struct.unpack_from is applied first (struct.error propagates,
uncaught); the column loop can raise Exception('_unpackRawData'); the final
declared-order reorder df[columnNames] raises KeyError when a declared name
is not among the materialized columns.  A null columnNames (no optional
columns) skips the reorder. -/
def unpackRawData (fmtO : Option StructFmt) (info1 : Option Info1Parsed)
    (colSelO : Option (List Nat)) (colSchema : List DecodeKind)
    (info2 : List SchemaRow) (dtconvert : Bool) (raw : List Nat) :
    Except PyErr DataFrame := do
  let fmt ← (match fmtO with
    | some f => Except.ok f
    | none => Except.error PyErr.typeError)
  let data ← (match unpackFrom fmt raw with
    | some d => Except.ok d
    | none => Except.error PyErr.structError)
  let i1 ← (match info1 with
    | some i => Except.ok i
    | none => Except.error PyErr.typeError)
  let colSel ← (match colSelO with
    | some l => Except.ok l
    | none => Except.error PyErr.unpackError)
  let df ← buildDfGo data i1.nRows colSchema info2 0 colSel []
  let df2 := postProcess dtconvert df
  match i1.columnNames with
  | some l =>
      if l.isEmpty then Except.ok df2
      else (match dfReindex df2 l with
        | some d => Except.ok d
        | none => Except.error PyErr.keyError)
  | none => Except.ok df2

/-- A caller-supplied column selector: a name or an integer index. -/
inductive Sel
  | str (s : String)
  | int (i : Int)
deriving DecidableEq

/-- Selector loop of Dobj.__setColumns (lines 440-448).  The Python local
idx is only assigned when the selector resolves, so an unresolvable selector
silently reuses the previous iteration's idx, and an unresolvable FIRST
selector raises UnboundLocalError at the membership test. -/
def setColumnsGo (colNames : List String) (n : Nat) :
    List Sel → Option Nat → List Nat → Except PyErr (List Nat)
  | [], _, acc => .ok acc
  | c :: rest, idx, acc =>
    let idx2 := match c with
      | .str nm => if upperStr nm ∈ colNames then some (colNames.indexOf (upperStr nm)) else idx
      | .int i => if 0 ≤ i ∧ i < (n : Int) then some i.toNat else idx
    match idx2 with
    | none => .error .unboundLocal
    | some v =>
        setColumnsGo colNames n rest (some v) (if v ∈ acc then acc else acc ++ [v])

/-- Dobj.__setColumns (lines 405-455): False on an invalid handle; None
selects all columns; otherwise resolve the selectors case-insensitively
against the sorted column names, return False leaving the state unchanged
when nothing resolved, and install the selection otherwise.  (The non-list
coercion branch is not modelled: the claims pass lists.) -/
def setColumns (cols : Option (List Sel)) (s : DobjState) :
    Except PyErr (Bool × DobjState) :=
  if s.dobjValid = false then .ok (false, s)
  else match cols with
  | none => .ok (true, {s with colSelected := none})
  | some columns =>
      let colNames := s.info2.map (fun r => upperStr r.colName)
      match setColumnsGo colNames colNames.length columns none [] with
      | .error e => .error e
      | .ok sel =>
          if sel.isEmpty then .ok (false, s)
          else .ok (true, {s with colSelected := some sel})

/-- Response of the remote tabular endpoint: a body, a non-success HTTP
status (raise_for_status → Exception), or a transport failure (requests.post
itself raises). -/
inductive RemoteResp
  | body (bs : List Nat)
  | httpFail
  | netFail
deriving DecidableEq

/-- The I/O world of one data access: local cache contents by path, the
remote endpoint's response per request body, and whether the fire-and-forget
usage-accounting post goes through at the transport level (its HTTP response
status is ignored by the code either way). -/
structure FetchEnv where
  localFS : String → Option (List Nat)
  remote : JsonReq → RemoteResp
  portalOk : Bool

/-- Externally visible requests issued during one data access. -/
inductive Event
  | stationQuery
  | localRead (path : String)
  | remotePost (j : JsonReq)
  | portalUse (objId : String) (cols : List String) (islocal : Bool)
deriving DecidableEq

/-- Dobj._localpath. -/
def localpath : String := "/data/dataAppStorage/"

/-- Tail of Dobj.__getColumns shared by the local and remote branches
(lines 333-335): the usage-accounting post (whose transport failure
propagates, there being no try/except around it), then __unpackRawData and
the persistent store of the frame. -/
def unpackStage (fenv : FetchEnv) (s : DobjState) (isl : Bool)
    (content : List Nat) (tr : List Event) :
    Except PyErr (DataFrame × DobjState × List Event) := do
  let tr2 := tr ++ [Event.portalUse s.dobj (s.info2.map (fun r => r.colName)) isl]
  if fenv.portalOk = false then Except.error PyErr.netError
  else do
    let df ← unpackRawData s.dtypeStruct s.info1 s.colSelected s.colSchema
      s.info2 s.dtconvert content
    let s2 := if s.datapersistent then {s with data := df} else s
    Except.ok (df, s2, tr2)

/-- Dobj.__getColumns (lines 297-335): fetch the station metadata, derive
the deterministic local cache path; on a hit read the file whole, reset the
selection to all columns and re-run __getPayload; otherwise post the
prepared request body to the tabular endpoint (non-success status or
transport failure raises, no retry); then account usage and decode. -/
def getColumnsInner (menv : MetaEnv) (fenv : FetchEnv)
    (rmatch : String → String → Bool) (s : DobjState) :
    Except PyErr (DataFrame × DobjState × List Event) := do
  let s1 := {s with info3 := some menv.station}
  let tr : List Event := [Event.stationQuery]
  let firstRow ← (match s1.info2 with
    | [] => Except.error PyErr.indexError
    | r :: _ => Except.ok r)
  let localfile := localpath ++ lastSeg firstRow.objFormat ++ "/" ++
    lastSeg s1.dobj ++ ".cpb"
  match fenv.localFS localfile with
  | some content => do
      let s2 ← getPayload menv rmatch {s1 with islocal := some true, colSelected := none}
      unpackStage fenv s2 true content (tr ++ [Event.localRead localfile])
  | none => do
      let s2 := {s1 with islocal := some false}
      let j ← (match s2.json with
        | some jv => Except.ok jv
        | none => Except.error PyErr.typeError)
      let content ← (match fenv.remote j with
        | .body bs => Except.ok bs
        | .httpFail => Except.error PyErr.httpError
        | .netFail => Except.error PyErr.netError)
      unpackStage fenv s2 false content (tr ++ [Event.remotePost j])

/-- Python truthiness of the columns argument: None and the empty list are
falsy. -/
def colsFalsy (cols : Option (List Sel)) : Bool :=
  match cols with
  | none => true
  | some [] => true
  | some (_ :: _) => false

/-- Result of the public data access: a decoded frame or the literal False. -/
inductive GetRes
  | table (df : DataFrame)
  | pyFalse
deriving DecidableEq

/-- Dobj.getColumns (lines 157-178): return the cached frame when it is
nonempty and persistence is on; with no selector on a valid handle decode
directly; otherwise apply the selection (recomputing the payload when it
succeeded) and decode if the handle is valid, returning False if not. -/
def getColumns (menv : MetaEnv) (fenv : FetchEnv)
    (rmatch : String → String → Bool) (cols : Option (List Sel))
    (s : DobjState) : Except PyErr (GetRes × DobjState × List Event) := do
  if dfEmpty s.data = false ∧ s.datapersistent = true then
    Except.ok (.table s.data, s, [])
  else if colsFalsy cols = true ∧ s.dobjValid = true then do
    let (df, s2, tr) ← getColumnsInner menv fenv rmatch s
    Except.ok (.table df, s2, tr)
  else do
    let s2 ←
      if colsFalsy cols = false then do
        let (ok, s3) ← setColumns cols s
        if ok = true then getPayload menv rmatch s3 else Except.ok s3
      else Except.ok s
    if s2.dobjValid = true then do
      let (df, s4, tr) ← getColumnsInner menv fenv rmatch s2
      Except.ok (.table df, s4, tr)
    else Except.ok (.pyFalse, s2, [])

end Icoscp

namespace Icoscp

/-- re.match specialised to the literal (metacharacter-free) patterns used
in the concrete scenarios below: a literal regex matches a name exactly when
it is a prefix of the name, as re.match anchors at the start. -/
def rmLit (pat s : String) : Bool := pat.data.isPrefixOf s.data

/-- Scenario A metadata: two literal int32 columns declared in the order B,
A (so the wire sort reverses them), one data row, no optional-columns list,
a nonempty citation. -/
def menvA : MetaEnv :=
  { info1 := some { dobjUri := "u/OBJ1"
                    objSpec := "spec1"
                    columnNamesRaw := none
                    nRows := 1 }
    schemaRows := [ { colName := "B", valFormat := "int32", isRegex := none, objFormat := "fmt/csv" }
                  , { colName := "A", valFormat := "int32", isRegex := none, objFormat := "fmt/csv" } ]
    citation := "cit"
    station := 7 }

/-- The valid handle scenario A produces. -/
def sA0 : DobjState :=
  (setDobj menvA rmLit ("x/OBJ1") initState).toOption.getD initState

/-- The all-columns raw payload of scenario A: A = 5, B = 9, big endian. -/
def bodyA : List Nat := [0, 0, 0, 5, 0, 0, 0, 9]

/-- The request body scenario A prepares for all columns. -/
def jA : JsonReq :=
  { tableId := "OBJ1"
    schemaColumns := [.int32, .int32]
    size := 1
    columnNumbers := [0, 1]
    subFolder := "csv" }

/-- The frame scenario A decodes to (columns already in wire order A, B). -/
def dfA : DataFrame := [(("A"), [Value.int 5]), (("B"), [Value.int 9])]

/-- A world with no local file, an unreachable remote and a failing
usage-accounting transport. -/
def fenvDead : FetchEnv :=
  { localFS := fun _ => none, remote := fun _ => .netFail, portalOk := false }

/-- A world where only the remote responds, serving scenario A's payload. -/
def fenvPortalOkA : FetchEnv :=
  { localFS := fun _ => none, remote := fun _ => .body bodyA, portalOk := true }

/-- Same world, except the usage-accounting post fails at transport level. -/
def fenvPortalFailA : FetchEnv :=
  { localFS := fun _ => none, remote := fun _ => .body bodyA, portalOk := false }

/-- Scenario A's handle after a persistent decode cached dfA. -/
def sCached : DobjState := {sA0 with data := dfA}

/-- The deterministic local cache path of scenario A's object. -/
def pathA : String := localpath ++ "csv/OBJ1.cpb"

/-- A world where the local cache holds scenario A's full payload. -/
def fenvLocalA : FetchEnv :=
  { localFS := fun p => if p = pathA then some bodyA else none
    remote := fun _ => .netFail
    portalOk := true }

/-- A remote faithfully serving scenario A's table: the first-column subset
request gets A's four bytes, anything else the full payload. -/
def remoteA (j : JsonReq) : RemoteResp :=
  if j.columnNumbers = [0] then .body [0, 0, 0, 5] else .body bodyA

/-- A world with no local file where remoteA serves the requests. -/
def fenvRemoteA : FetchEnv :=
  { localFS := fun _ => none, remote := remoteA, portalOk := true }

/-- Scenario A's handle after selecting only column 0 (name A) and
recomputing the payload, as getColumns does on a selection. -/
def sAsub : DobjState :=
  ((setColumns (some [Sel.int 0]) sA0).bind
    (fun r => getPayload menvA rmLit r.2)).toOption.getD initState

/-- The derived payload of scenario A under the all-columns selection. -/
def dA : PayloadDerived :=
  match payloadCore menvA rmLit none .big with
  | .ok (some d) => d
  | _ => ⟨⟨"", "", none, 0⟩, [], [], [], (.big, []), ⟨"", [], 0, [], ""⟩, ""⟩

/-- The trace of scenario A's successful remote fetch. -/
def trC5 : List Event :=
  [.stationQuery, .remotePost jA, .portalUse ("x/OBJ1") (["A", "B"]) false]

/-- The handle state after scenario A's successful remote fetch. -/
def sC5r : DobjState := {sA0 with info3 := some 7, islocal := some false, data := dfA}

/-- Scenario C2 metadata: the realized column list names A and B, but only A
is declared; no pattern columns. -/
def menvC2 : MetaEnv :=
  { info1 := some { dobjUri := "u/OBJ2"
                    objSpec := "s"
                    columnNamesRaw := some ("[\"A\", \"B\"]")
                    nRows := 1 }
    schemaRows := [ { colName := "A", valFormat := "int32", isRegex := none, objFormat := "fmt/csv" } ]
    citation := ""
    station := 0 }

/-- Scenario C7 schema rows: two pattern columns whose literal patterns A
and AB both match the realized name AB. -/
def regRows : List SchemaRow := attachLabels
  [ { colName := "A", valFormat := "float32", isRegex := some ("true"), objFormat := "f" }
  , { colName := "AB", valFormat := "int32", isRegex := some ("true"), objFormat := "f" } ]

/-- Scenario C8 metadata: three literal int32 columns declared in the order
b, a, c, with the optional-columns list carrying the same declared order. -/
def menvC8 : MetaEnv :=
  { info1 := some { dobjUri := "u/OBJ3"
                    objSpec := "s"
                    columnNamesRaw := some ("[\"b\",\"a\",\"c\"]")
                    nRows := 1 }
    schemaRows := [ { colName := "b", valFormat := "int32", isRegex := none, objFormat := "fmt/csv" }
                  , { colName := "a", valFormat := "int32", isRegex := none, objFormat := "fmt/csv" }
                  , { colName := "c", valFormat := "int32", isRegex := none, objFormat := "fmt/csv" } ]
    citation := ""
    station := 0 }

/-- The valid handle scenario C8 produces (all columns selected). -/
def sC8 : DobjState :=
  (setDobj menvC8 rmLit ("x/OBJ3") initState).toOption.getD initState

/-- Scenario C8's handle after selecting only column 0 (name a). -/
def sC8sub : DobjState :=
  ((setColumns (some [Sel.int 0]) sC8).bind
    (fun r => getPayload menvC8 rmLit r.2)).toOption.getD initState

/-- Scenario C8's all-columns payload: a = 1, b = 2, c = 3 in wire order. -/
def rawC8 : List Nat := [0, 0, 0, 1, 0, 0, 0, 2, 0, 0, 0, 3]

/-- Scenario C8's decoded frame, reordered to the declared order b, a, c. -/
def outC8 : DataFrame :=
  [(("b"), [Value.int 2]), (("a"), [Value.int 1]), (("c"), [Value.int 3])]

/-- Metadata of an identifier whose cpbGetInfo query returns zero rows. -/
def menvEmpty : MetaEnv :=
  { info1 := none, schemaRows := [], citation := "", station := 0 }

/-- Classifier for usage-accounting trace events. -/
def isPortalEvent : Event → Bool
  | .portalUse _ _ _ => true
  | _ => false

end Icoscp

namespace Icoscp

theorem dfReindex_map_fst (df : DataFrame) :
    ∀ (names : List String) (out : DataFrame), dfReindex df names = some out →
      out.map Prod.fst = names := by
  intro names
  induction names with
  | nil =>
      intro out h
      simp only [dfReindex, Option.some_inj] at h
      simp [← h]
  | cons n ns ih =>
      intro out h
      simp only [dfReindex] at h
      cases hl : dfLookup df n with
      | none => rw [hl] at h; simp at h
      | some v =>
          rw [hl] at h
          cases hr : dfReindex df ns with
          | none => rw [hr] at h; simp at h
          | some rest =>
              rw [hr] at h
              simp only [Option.some_inj] at h
              subst h
              simp [ih rest hr]

/-- Claim C10 (amended): assigning a falsy identifier leaves the stored
identifier, the validity flag, the column selection and the cached table
untouched and issues no metadata query (the result does not depend on the
metadata environment), but it does clear the internal _dobjSet flag. -/
theorem C10_amended (menv : MetaEnv) (rmatch : String → String → Bool)
    (s : DobjState) :
    setDobj menv rmatch ("") s = Except.ok {s with dobjSet := false} := by
  simp [setDobj]

/-- Claim C10 as stated is false: on a handle whose identifier is set,
assigning the empty identifier does change state, flipping _dobjSet, so not
all other state is left unchanged. -/
theorem C10_counterexample :
    setDobj menvA rmLit ("") sA0 = Except.ok {sA0 with dobjSet := false} ∧
      ({sA0 with dobjSet := false} ≠ sA0) := by decide

/-- Claim C3 (amended): while a nonempty decoded table is cached and
persistence is enabled, any data-access call returns the cached table
unchanged and untouched (state and trace unchanged), whatever new column
selection it carries; re-selection only takes effect once the cache is empty
or persistence is disabled. -/
theorem C3_amended (menv : MetaEnv) (fenv : FetchEnv)
    (rmatch : String → String → Bool) (cols : Option (List Sel)) (s : DobjState)
    (hdata : dfEmpty s.data = false) (hpers : s.datapersistent = true) :
    getColumns menv fenv rmatch cols s = Except.ok (GetRes.table s.data, s, []) := by
  simp [getColumns, hdata, hpers]

/-- Witness for C3_amended: the cached scenario-A handle returns its stale
two-column table for a changed selection. -/
theorem C3_amended_witness :
    getColumns menvA fenvDead rmLit (some [Sel.str ("B")]) sCached =
      Except.ok (GetRes.table sCached.data, sCached, []) :=
  C3_amended menvA fenvDead rmLit (some [Sel.str ("B")]) sCached (by decide) (by decide)

/-- Claim C3 as stated is false: with persistence enabled and a table
cached, re-selecting column B returns the stale cached table containing
columns A and B, with the state (including the old selection) unchanged and
no request issued; the fresh selection is never applied. -/
theorem C3_counterexample :
    getColumns menvA fenvDead rmLit (some [Sel.str ("B")]) sCached =
      Except.ok (GetRes.table dfA, sCached, []) ∧
    dfA.map Prod.fst = ["A", "B"] ∧ sCached.colSelected = some [0, 1] := by decide

/-- Claim C9 (amended): an identifier whose metadata query returns zero rows
marks the handle invalid, and a subsequent data-access call returns the
Python False with no fetch, decode or other state change - provided no
nonempty table from a previous identifier is still cached (that stale table
would be returned instead). -/
theorem C9_amended (menv : MetaEnv) (fenv : FetchEnv)
    (rmatch : String → String → Bool) (d : String) (cols : Option (List Sel))
    (s : DobjState) (hmeta : menv.info1 = none) (hd : d ≠ "")
    (hcache : dfEmpty s.data = true) :
    (setDobj menv rmatch d s).bind (fun s2 => getColumns menv fenv rmatch cols s2) =
      Except.ok (GetRes.pyFalse,
        {s with dobj := d, dobjSet := true, info1 := none, dobjValid := false}, []) := by
  have hset : setDobj menv rmatch d s =
      Except.ok {s with dobj := d, dobjSet := true, info1 := none, dobjValid := false} := by
    simp [setDobj, hd, getPayload, payloadCore, hmeta]
  rw [hset]
  cases hc : colsFalsy cols <;>
    simp [getColumns, hcache, hc, setColumns, Except.bind, Bind.bind, Except.bind]

/-- Witness for C9_amended: a fresh handle bound to an identifier with an
empty metadata result answers False to a parameterless data access. -/
theorem C9_amended_witness :
    (setDobj menvEmpty rmLit ("x/OBJ9") initState).bind
        (fun s2 => getColumns menvEmpty fenvDead rmLit none s2) =
      Except.ok (GetRes.pyFalse,
        {initState with
          dobj := "x/OBJ9"
          dobjSet := true
          info1 := none
          dobjValid := false}, []) :=
  C9_amended menvEmpty fenvDead rmLit ("x/OBJ9") none initState rfl
    (by decide) (by decide)

/-- Claim C9 as stated is false: after a zero-row metadata result the handle
does enter the invalid state, but a data-access call still returns the
decoded table cached under the previous identifier - a positive result -
rather than a negative one. -/
theorem C9_counterexample :
    (setDobj menvEmpty rmLit ("x/OBJ9") sCached).map (fun s => s.dobjValid) =
      Except.ok false ∧
    (setDobj menvEmpty rmLit ("x/OBJ9") sCached).bind
        (fun s => getColumns menvEmpty fenvDead rmLit none s) =
      Except.ok (GetRes.table dfA,
        {sCached with
          dobj := "x/OBJ9"
          dobjSet := true
          info1 := none
          dobjValid := false}, []) := by decide

end Icoscp

namespace Icoscp

theorem exceptBind_ok {α β : Type} (a : α) (f : α → Except PyErr β) :
    (Except.ok a >>= f) = f a := rfl

theorem exceptBind_error {α β : Type} (e : PyErr) (f : α → Except PyErr β) :
    ((Except.error e : Except PyErr α) >>= f) = Except.error e := rfl

theorem payloadCore_ne_ok_none (menv : MetaEnv) (rmatch : String → String → Bool)
    (cs : Option (List Nat)) (e : Endian) (i1 : Info1Row)
    (h : menv.info1 = some i1) :
    payloadCore menv rmatch cs e ≠ Except.ok none := by
  intro hc
  simp only [payloadCore, h] at hc
  cases hp : parseStage rmatch i1 (attachLabels menv.schemaRows) with
  | error err => rw [hp, exceptBind_error] at hc; cases hc
  | ok parsed =>
      rw [hp, exceptBind_ok] at hc
      cases hs : mapSchema (sortByName parsed.2) with
      | error err => rw [hs, exceptBind_error] at hc; cases hc
      | ok colSchema =>
          rw [hs, exceptBind_ok] at hc
          cases ht : mapToks colSchema i1.nRows
              (selOrAll cs (sortByName parsed.2).length) with
          | error err => rw [ht, exceptBind_error] at hc; cases hc
          | ok toks =>
              rw [ht, exceptBind_ok] at hc
              cases h2 : sortByName parsed.2 with
              | nil => rw [h2] at hc; cases hc
              | cons r rest => rw [h2] at hc; cases hc

/-- Claim C2 (amended): __getPayload performs no realized-name validation at
all and no InvalidSchema failure exists; whenever its queries and type
mapping succeed, the handle is marked valid purely according to whether the
metadata query returned a row - even if realized names are missing from (or
duplicated in) the resolved schema, so such mismatches surface only later
(e.g. as a KeyError at decode time). -/
theorem C2_amended (menv : MetaEnv) (rmatch : String → String → Bool)
    (s : DobjState) (hset : s.dobjSet = true)
    (hok : (getPayload menv rmatch s).isOk = true) :
    (getPayload menv rmatch s).map (fun t => t.dobjValid) =
      Except.ok menv.info1.isSome := by
  rw [getPayload, if_neg (by simp [hset])]
  rw [getPayload, if_neg (by simp [hset])] at hok
  cases hm : menv.info1 with
  | none =>
      have hp : payloadCore menv rmatch s.colSelected s.endian = .ok none := by
        simp [payloadCore, hm]
      rw [hp]
      rfl
  | some i1 =>
      cases hp : payloadCore menv rmatch s.colSelected s.endian with
      | error err =>
          rw [hp] at hok
          simp [Except.isOk, Except.toBool] at hok
      | ok od =>
          cases od with
          | none =>
              exact absurd hp
                (payloadCore_ne_ok_none menv rmatch s.colSelected s.endian i1 hm)
          | some d => rfl

/-- Witness for C2_amended: scenario C2's metadata resolves successfully, so
the handle is reported valid. -/
theorem C2_amended_witness :
    (getPayload menvC2 rmLit {initState with dobj := "x/OBJ2", dobjSet := true}).map
      (fun t => t.dobjValid) = Except.ok true :=
  C2_amended menvC2 rmLit {initState with dobj := "x/OBJ2", dobjSet := true}
    rfl (by decide)

/-- Claim C2 as stated is false: with realized names A and B but only A
declared, resolution succeeds and marks the object valid (no InvalidSchema,
no invalid state), with B simply absent from the resolved schema. -/
theorem C2_counterexample :
    (setDobj menvC2 rmLit ("x/OBJ2") initState).map
      (fun s => (s.dobjValid, s.info2.map (fun r => r.colName),
        s.info1.map (fun i => i.columnNames))) =
      Except.ok (true, ["A"], some (some ["A", "B"])) := by decide

/-- Claim C6 is the documented behaviour, but the code has a bug: __setColumns's
docstring promises False (selection unchanged) when a column cannot be
found, yet an unresolvable first selector leaves the Python local idx
unassigned and the membership test raises UnboundLocalError; moreover a
later unresolvable selector is silently dropped (reusing the previous idx)
and the remaining selection is applied anyway. -/
theorem C6_bug :
    getColumns menvA fenvDead rmLit (some [Sel.int 5]) sA0 =
      Except.error PyErr.unboundLocal ∧
    (setColumns (some [Sel.str ("a"), Sel.int 5]) sA0).map
      (fun r => (r.1, r.2.colSelected)) = Except.ok (true, some [0]) ∧
    sA0.info2.length = 2 := by decide

/-- Claim C8 (amended): whenever decode succeeds and the declared-order name
list is present, the returned table's columns are exactly that list, in
order (the wire sort is undone).  But the property does not hold for every
selection: under a proper-subset selection with the declared list present
decode raises KeyError instead of returning a table (see the
counterexample), and with no declared list the selection order is kept. -/
theorem C8_amended (fmtO : Option StructFmt) (info1 : Option Info1Parsed)
    (colSelO : Option (List Nat)) (colSchema : List DecodeKind)
    (info2 : List SchemaRow) (dtconvert : Bool) (raw : List Nat)
    (i1 : Info1Parsed) (l : List String) (out : DataFrame)
    (hinfo : info1 = some i1) (hl : i1.columnNames = some l) (hne : l ≠ [])
    (hout : unpackRawData fmtO info1 colSelO colSchema info2 dtconvert raw =
      Except.ok out) :
    out.map Prod.fst = l := by
  subst hinfo
  cases fmtO with
  | none =>
      simp only [unpackRawData, exceptBind_error] at hout
      cases hout
  | some fmt =>
      simp only [unpackRawData, exceptBind_ok, exceptBind_error] at hout
      cases hu : unpackFrom fmt raw with
      | none =>
          rw [hu] at hout
          simp only [exceptBind_error] at hout
          cases hout
      | some data =>
          rw [hu] at hout
          simp only [exceptBind_ok, exceptBind_error] at hout
          cases colSelO with
          | none =>
              simp only [exceptBind_error] at hout
              cases hout
          | some colSel =>
              simp only [exceptBind_ok, exceptBind_error] at hout
              cases hb : buildDfGo data i1.nRows colSchema info2 0 colSel [] with
              | error err =>
                  rw [hb] at hout
                  simp only [exceptBind_error] at hout
                  cases hout
              | ok df =>
                  rw [hb] at hout
                  simp only [exceptBind_ok, exceptBind_error] at hout
                  rw [hl] at hout
                  have hie : l.isEmpty = false := by
                    cases l with
                    | nil => exact absurd rfl hne
                    | cons a as => rfl
                  simp only [hie, Bool.false_eq_true, if_false] at hout
                  cases hr : dfReindex (postProcess dtconvert df) l with
                  | none => rw [hr] at hout; cases hout
                  | some d2 =>
                      rw [hr] at hout
                      simp only [Except.ok.injEq] at hout
                      rw [← hout]
                      exact dfReindex_map_fst (postProcess dtconvert df) l d2 hr

/-- Witness for C8_amended: scenario C8 decodes with wire order a, b, c and
returns columns in the declared order b, a, c. -/
theorem C8_amended_witness :
    outC8.map Prod.fst = ["b", "a", "c"] :=
  C8_amended sC8.dtypeStruct sC8.info1 sC8.colSelected sC8.colSchema sC8.info2
    true rawC8 ⟨"u/OBJ3", "s", some ["b", "a", "c"], 1⟩ (["b", "a", "c"]) outC8
    (by decide) rfl (by decide) (by decide)

/-- Claim C8 as stated is false for a proper-subset selection: with the
declared list b, a, c present and only column a selected, decode raises
KeyError instead of returning a table in declared order. -/
theorem C8_counterexample :
    sC8sub.colSelected = some [0] ∧
    sC8sub.info1.map (fun i => i.columnNames) = some (some ["b", "a", "c"]) ∧
    unpackRawData sC8sub.dtypeStruct sC8sub.info1 sC8sub.colSelected sC8sub.colSchema
      sC8sub.info2 true ([0, 0, 0, 1]) = Except.error PyErr.keyError := by decide

end Icoscp

namespace Icoscp

theorem filter_map_renumberFrom {α : Type} (p : SchemaRow → Bool)
    (f : SchemaRow → α)
    (hp : ∀ (r : SchemaRow) (i : Nat), p {r with label := i} = p r)
    (hf : ∀ (r : SchemaRow) (i : Nat), f {r with label := i} = f r) :
    ∀ (l : List SchemaRow) (i : Nat),
      ((renumberFrom i l).filter p).map f = (l.filter p).map f := by
  intro l
  induction l with
  | nil => intro i; rfl
  | cons r rs ih =>
      intro i
      simp only [renumberFrom, List.filter_cons, hp]
      cases hpr : p r with
      | true => simp [hpr, hf, ih]
      | false => simp [hpr, ih]

theorem regexMatches_proj (rmatch : String → String → Bool) (r : SchemaRow)
    (colList : List String) :
    ((regexMatches rmatch r colList).filter (fun x => x.isRegex ≠ some ("true"))).map
      (fun x => (x.colName, x.valFormat, x.isRegex)) =
    (colList.filter (fun c => rmatch r.colName c)).map
      (fun c => (c, r.valFormat, (none : Option String))) := by
  rw [regexMatches]
  generalize colList.filter (fun c => rmatch r.colName c) = l
  induction l with
  | nil => rfl
  | cons c cs ih =>
      simp only [List.map_cons, List.filter_cons] at ih ⊢
      simp at ih ⊢
      exact ih

theorem flatMap_filter_map_proj (rmatch : String → String → Bool)
    (colList : List String) :
    ∀ (rs : List SchemaRow),
    ((rs.flatMap (fun r => regexMatches rmatch r colList)).filter
        (fun x => x.isRegex ≠ some ("true"))).map
      (fun x => (x.colName, x.valFormat, x.isRegex)) =
    rs.flatMap (fun r => (colList.filter (fun c => rmatch r.colName c)).map
      (fun c => (c, r.valFormat, (none : Option String)))) := by
  intro rs
  induction rs with
  | nil => rfl
  | cons r rest ih =>
      simp only [List.flatMap_cons, List.filter_append, List.map_append, ih,
        regexMatches_proj]

/-- Claim C7 (amended): when any pattern column is declared, expansion keeps
the non-pattern rows and appends, for each pattern row in order and for each
realized name its pattern matches in order, one concrete column carrying the
matched literal name and the pattern's declared format, with the pattern
flag cleared; a pattern matching zero names contributes nothing and is not
an error.  There is however no deduplication: a realized name matched by k
patterns yields k concrete columns, not one ("first match wins" does not
hold). -/
theorem C7_amended (rmatch : String → String → Bool) (info2 : List SchemaRow)
    (colList : List String)
    (hreg : info2.countP (fun r => r.isRegex.isSome) ≠ 0) :
    (expandRegex rmatch info2 colList).map
        (fun r => (r.colName, r.valFormat, r.isRegex)) =
      (info2.filter (fun r => r.isRegex ≠ some ("true"))).map
        (fun r => (r.colName, r.valFormat, r.isRegex)) ++
      (info2.filter (fun r => r.isRegex = some ("true"))).flatMap
        (fun r => (colList.filter (fun c => rmatch r.colName c)).map
          (fun c => (c, r.valFormat, (none : Option String)))) := by
  simp only [expandRegex, renumber]
  rw [if_pos hreg]
  rw [filter_map_renumberFrom (fun x => decide (x.isRegex ≠ some ("true")))
    (fun x => (x.colName, x.valFormat, x.isRegex)) (fun x i => rfl) (fun x i => rfl)]
  rw [List.filter_append, List.map_append, flatMap_filter_map_proj]

/-- Witness for C7_amended: the two scenario-C7 patterns expand against the
single realized name AB. -/
theorem C7_amended_witness :
    (expandRegex rmLit regRows (["AB"])).map
        (fun r => (r.colName, r.valFormat, r.isRegex)) =
      (regRows.filter (fun r => r.isRegex ≠ some ("true"))).map
        (fun r => (r.colName, r.valFormat, r.isRegex)) ++
      (regRows.filter (fun r => r.isRegex = some ("true"))).flatMap
        (fun r => ((["AB"] : List String).filter (fun c => rmLit r.colName c)).map
          (fun c => (c, r.valFormat, (none : Option String)))) :=
  C7_amended rmLit regRows (["AB"]) (by decide)

/-- Claim C7's deduplication clause is false: two patterns (literal prefixes
A and AB) both match the realized name AB and expansion yields two concrete
columns named AB, one per pattern, instead of deduplicating to the first
match. -/
theorem C7_counterexample :
    (expandRegex rmLit regRows (["AB"])).map (fun r => (r.colName, r.valFormat)) =
      [(("AB"), ("float32")), (("AB"), ("int32"))] ∧
    ((expandRegex rmLit regRows (["AB"])).map (fun r => r.colName)).count ("AB") = 2 := by
  decide

end Icoscp

namespace Icoscp

theorem unpackStage_ok_trace (fenv : FetchEnv) (s : DobjState) (isl : Bool)
    (content : List Nat) (tr : List Event) (df : DataFrame) (s2 : DobjState)
    (tr2 : List Event)
    (h : unpackStage fenv s isl content tr = Except.ok (df, s2, tr2)) :
    tr2 = tr ++ [Event.portalUse s.dobj (s.info2.map (fun r => r.colName)) isl] := by
  simp only [unpackStage] at h
  cases hp : fenv.portalOk with
  | false => rw [hp] at h; simp at h
  | true =>
      rw [hp] at h
      simp only [Bool.true_eq_false, if_false] at h
      cases hu : unpackRawData s.dtypeStruct s.info1 s.colSelected s.colSchema
          s.info2 s.dtconvert content with
      | error err =>
          rw [hu] at h
          simp only [exceptBind_error] at h
          cases h
      | ok df0 =>
          rw [hu] at h
          simp only [exceptBind_ok, Except.ok.injEq, Prod.mk.injEq] at h
          exact h.2.2.symm

theorem unpackStage_portalFail (fenv : FetchEnv) (s : DobjState) (isl : Bool)
    (content : List Nat) (tr : List Event) (hp : fenv.portalOk = false)
    (r : DataFrame × DobjState × List Event) :
    unpackStage fenv s isl content tr ≠ Except.ok r := by
  simp [unpackStage, hp]

/-- Claim C5 (amended): every successful data fetch issues exactly one
usage-accounting request (its trace holds exactly one portalUse event), and
the code ignores the accounting response's status - but a transport-level
failure of the accounting post is not swallowed: whenever portalOk is false
no data access can succeed, even though the payload itself was fetched. -/
theorem C5_amended (menv : MetaEnv) (fenv : FetchEnv)
    (rmatch : String → String → Bool) (s : DobjState) :
    (∀ (df : DataFrame) (s2 : DobjState) (tr : List Event),
      getColumnsInner menv fenv rmatch s = Except.ok (df, s2, tr) →
        tr.countP isPortalEvent = 1) ∧
    (fenv.portalOk = false →
      ∀ r, getColumnsInner menv fenv rmatch s ≠ Except.ok r) := by
  have main : ∀ (df : DataFrame) (s2 : DobjState) (tr : List Event),
      getColumnsInner menv fenv rmatch s = Except.ok (df, s2, tr) →
        tr.countP isPortalEvent = 1 ∧ fenv.portalOk = true := by
    intro df s2 tr h
    simp only [getColumnsInner] at h
    cases hi : s.info2 with
    | nil =>
        rw [hi] at h
        simp only [exceptBind_error] at h
        cases h
    | cons r0 rest =>
        rw [hi] at h
        simp only [exceptBind_ok] at h
        cases hL : fenv.localFS (localpath ++ lastSeg r0.objFormat ++ "/" ++
            lastSeg s.dobj ++ ".cpb") with
        | some content =>
            rw [hL] at h
            simp only [exceptBind_ok, exceptBind_error] at h
            cases hg : getPayload menv rmatch {s with info2 := r0 :: rest, islocal := some true, colSelected := none, info3 := some menv.station} with
            | error err =>
                rw [hg] at h
                simp only [exceptBind_error] at h
                cases h
            | ok s3 =>
                rw [hg] at h
                simp only [exceptBind_ok] at h
                refine ⟨?_, ?_⟩
                · rw [unpackStage_ok_trace _ _ _ _ _ _ _ _ h]
                  simp [isPortalEvent, List.countP_append, List.countP_cons]
                · by_contra hpc
                  have hp : fenv.portalOk = false := by
                    cases hpv : fenv.portalOk
                    · rfl
                    · exact absurd hpv hpc
                  exact unpackStage_portalFail _ _ _ _ _ hp _ h
        | none =>
            rw [hL] at h
            simp only [exceptBind_ok, exceptBind_error] at h
            cases hj : s.json with
            | none =>
                rw [hj] at h
                simp only [exceptBind_error] at h
                cases h
            | some j =>
                rw [hj] at h
                simp only [exceptBind_ok] at h
                cases hr : fenv.remote j with
                | body bs =>
                    rw [hr] at h
                    simp only [exceptBind_ok] at h
                    refine ⟨?_, ?_⟩
                    · rw [unpackStage_ok_trace _ _ _ _ _ _ _ _ h]
                      simp [isPortalEvent, List.countP_append, List.countP_cons]
                    · by_contra hpc
                      have hp : fenv.portalOk = false := by
                        cases hpv : fenv.portalOk
                        · rfl
                        · exact absurd hpv hpc
                      exact unpackStage_portalFail _ _ _ _ _ hp _ h
                | httpFail =>
                    rw [hr] at h
                    simp only [exceptBind_error] at h
                    cases h
                | netFail =>
                    rw [hr] at h
                    simp only [exceptBind_error] at h
                    cases h
  constructor
  · intro df s2 tr h
    exact (main df s2 tr h).1
  · intro hp r h
    obtain ⟨df, s2, tr⟩ := r
    have h2 := (main df s2 tr h).2
    rw [hp] at h2
    cases h2

/-- Witness for C5_amended: scenario A's successful remote fetch carries
exactly one usage-accounting event, and in the dead world (failing
accounting transport) that same access cannot succeed. -/
theorem C5_amended_witness :
    trC5.countP isPortalEvent = 1 ∧
    getColumnsInner menvA fenvDead rmLit sA0 ≠ Except.ok (dfA, sA0, trC5) :=
  ⟨(C5_amended menvA fenvPortalOkA rmLit sA0).1 dfA sC5r trC5 (by decide),
   (C5_amended menvA fenvDead rmLit sA0).2 rfl (dfA, sA0, trC5)⟩

/-- Claim C5's failure-isolation clause is false: with the remote endpoint
serving the payload correctly but the usage-accounting post failing at
transport level, the whole data access raises instead of returning the
decoded table; the same world with a working accounting transport succeeds. -/
theorem C5_counterexample :
    getColumnsInner menvA fenvPortalFailA rmLit sA0 = Except.error PyErr.netError ∧
    (getColumnsInner menvA fenvPortalOkA rmLit sA0).isOk = true := by decide

end Icoscp

namespace Icoscp

/-- Claim C4 (amended): the payload source is interchangeable only under the
all-columns selection: for a handle whose plan equals the all-columns
derivation (payloadCore with no selection), if the local cache file at the
derived deterministic path holds exactly the bytes the remote would serve
for the prepared request, then the local-hit world and the remote world
decode to the same table.  Under a proper-subset selection the paths
diverge, because the local branch resets the selection to all columns (see
the counterexample). -/
theorem C4_amended (menv : MetaEnv) (fenv1 fenv2 : FetchEnv)
    (rmatch : String → String → Bool) (s : DobjState) (r0 : SchemaRow)
    (rest : List SchemaRow) (content : List Nat) (j : JsonReq)
    (d : PayloadDerived)
    (hset : s.dobjSet = true)
    (hinfo2 : s.info2 = r0 :: rest)
    (hpay : payloadCore menv rmatch none s.endian = Except.ok (some d))
    (h1 : s.info1 = some d.info1) (h3 : s.colSelected = some d.colSelected)
    (h2 : s.info2 = d.info2) (h4 : s.colSchema = d.colSchema)
    (h5 : s.dtypeStruct = some d.dtypeStruct)
    (hjson : s.json = some j)
    (hloc1 : fenv1.localFS (localpath ++ lastSeg r0.objFormat ++ "/" ++
      lastSeg s.dobj ++ ".cpb") = some content)
    (hloc2 : fenv2.localFS (localpath ++ lastSeg r0.objFormat ++ "/" ++
      lastSeg s.dobj ++ ".cpb") = none)
    (hrem : fenv2.remote j = RemoteResp.body content)
    (hp1 : fenv1.portalOk = true) (hp2 : fenv2.portalOk = true) :
    (getColumnsInner menv fenv1 rmatch s).map (fun r => r.1) =
      (getColumnsInner menv fenv2 rmatch s).map (fun r => r.1) := by
  have h2r : d.info2 = r0 :: rest := by rw [← h2, hinfo2]
  simp only [getColumnsInner]
  rw [hinfo2]
  simp only [exceptBind_ok]
  rw [hloc1, hloc2]
  simp only [exceptBind_ok, exceptBind_error]
  rw [hjson]
  simp only [exceptBind_ok]
  rw [hrem]
  simp only [exceptBind_ok]
  simp only [getPayload, hset, Bool.true_eq_false, if_false, hpay]
  simp only [unpackStage, applyDerived, hp1, hp2, Bool.true_eq_false, if_false]
  simp only [hinfo2, h1, h2r, h3, h4, h5]
  simp only [exceptBind_ok]
  cases hu : unpackRawData (some d.dtypeStruct) (some d.info1)
      (some d.colSelected) d.colSchema (r0 :: rest) s.dtconvert content with
  | error err => simp only [exceptBind_error]
  | ok df => simp only [exceptBind_ok, Except.map]

/-- Witness for C4_amended: in scenario A under the all-columns selection,
the local-cache world and the remote world return the same decoded table. -/
theorem C4_amended_witness :
    (getColumnsInner menvA fenvLocalA rmLit sA0).map (fun r => r.1) =
      (getColumnsInner menvA fenvRemoteA rmLit sA0).map (fun r => r.1) :=
  C4_amended menvA fenvLocalA fenvRemoteA rmLit sA0
    ⟨1, "A", "int32", none, "fmt/csv"⟩ [⟨0, "B", "int32", none, "fmt/csv"⟩]
    bodyA jA dA (by decide) (by decide) (by decide) (by decide) (by decide)
    (by decide) (by decide) (by decide) (by decide) (by decide) (by decide)
    (by decide) (by decide) (by decide)

/-- Claim C4 as stated is false under a proper-subset selection: with only
column 0 (name A) selected, the local-hit world resets the selection and
returns both columns A and B, while the remote world (serving the matching
subset bytes for the same table) returns only column A - the source choice
is observable in the result. -/
theorem C4_counterexample :
    (getColumnsInner menvA fenvLocalA rmLit sAsub).map (fun r => r.1.map Prod.fst) =
      Except.ok (["A", "B"]) ∧
    (getColumnsInner menvA fenvRemoteA rmLit sAsub).map (fun r => r.1.map Prod.fst) =
      Except.ok (["A"]) ∧
    sAsub.colSelected = some [0] := by decide

end Icoscp

namespace Icoscp

theorem length_decodeRun (e : Endian) (k : DecodeKind) :
    ∀ (n : Nat) (bs : List Nat), (decodeRun e k n bs).length = n := by
  intro n
  induction n with
  | zero => intro bs; rfl
  | succ m ih => intro bs; simp [decodeRun, ih]

theorem beNat_foldl_lt (bs : List Nat) :
    ∀ a : Nat, List.foldl (fun x b => x * 256 + b % 256) a bs <
      (a + 1) * 256 ^ bs.length := by
  induction bs with
  | nil => intro a; simp
  | cons c cs ih =>
      intro a
      simp only [List.foldl_cons, List.length_cons]
      calc List.foldl (fun x b => x * 256 + b % 256) (a * 256 + c % 256) cs
          < (a * 256 + c % 256 + 1) * 256 ^ cs.length := ih _
        _ ≤ ((a + 1) * 256) * 256 ^ cs.length := by
            have hc : c % 256 < 256 := Nat.mod_lt _ (by norm_num)
            have : a * 256 + c % 256 + 1 ≤ (a + 1) * 256 := by omega
            exact Nat.mul_le_mul_right _ this
        _ = (a + 1) * 256 ^ (cs.length + 1) := by ring

theorem beNat_lt (bs : List Nat) : beNat bs < 256 ^ bs.length := by
  have h := beNat_foldl_lt bs 0
  simpa [beNat] using h

theorem decodeScalar_char16_range (e : Endian) (bs : List Nat)
    (hlen : bs.length ≤ 2) :
    0 ≤ decodeScalar e .char16 bs ∧ decodeScalar e .char16 bs ≤ 1114111 := by
  have hb : ∀ (l : List Nat), l.length ≤ 2 → beNat l ≤ 1114111 := by
    intro l hl
    have := beNat_lt l
    have h2 : (256 : Nat) ^ l.length ≤ 256 ^ 2 :=
      Nat.pow_le_pow_right (by norm_num) hl
    omega
  cases e with
  | big =>
      refine ⟨by simp [decodeScalar], ?_⟩
      have := hb bs hlen
      simp only [decodeScalar]
      exact_mod_cast this
  | little =>
      refine ⟨by simp [decodeScalar], ?_⟩
      have := hb bs.reverse (by simpa using hlen)
      simp only [decodeScalar, leNat]
      exact_mod_cast this

theorem decodeRun_char16_mem (e : Endian) :
    ∀ (n : Nat) (bs : List Nat) (v : Int), v ∈ decodeRun e .char16 n bs →
      0 ≤ v ∧ v ≤ 1114111 := by
  intro n
  induction n with
  | zero => intro bs v hv; simp [decodeRun] at hv
  | succ m ih =>
      intro bs v hv
      simp only [decodeRun, List.mem_cons] at hv
      rcases hv with h | h
      · subst h
        exact decodeScalar_char16_range e _ (by
          simp only [width, List.length_take]
          omega)
      · exact ih _ v h

theorem mapChr_ok (lst : List Int) (h : ∀ v ∈ lst, 0 ≤ v ∧ v ≤ 1114111) :
    ∃ vals, mapChr lst = Except.ok vals := by
  induction lst with
  | nil => exact ⟨[], rfl⟩
  | cons i is ih =>
      obtain ⟨h1, h2⟩ := h i (List.mem_cons_self i is)
      have hchr : pyChr i = Except.ok (Value.char i.toNat) := by
        simp [pyChr, h1, h2]
      obtain ⟨vs, hvs⟩ := ih (fun v hv => h v (List.mem_cons_of_mem _ hv))
      refine ⟨Value.char i.toNat :: vs, ?_⟩
      simp [mapChr, hchr, hvs, Except.map]

theorem buildDfGo_ok (e : Endian) (rows : Nat) (colSchema : List DecodeKind)
    (info2 : List SchemaRow) :
    ∀ (colSel : List Nat) (toks : List (DecodeKind × Nat)) (bs : List Nat)
      (data : List Int) (idx : Nat) (df : DataFrame),
      mapToks colSchema rows colSel = Except.ok toks →
      (∀ c ∈ colSel, c < info2.length) →
      data.drop (idx * rows) = decodeTokens e toks bs →
      ∃ out, buildDfGo data rows colSchema info2 idx colSel df = Except.ok out := by
  intro colSel
  induction colSel with
  | nil => intro toks bs data idx df _ _ _; exact ⟨df, rfl⟩
  | cons col restSel ih =>
      intro toks bs data idx df htoks hmem hdata
      simp only [mapToks] at htoks
      cases hk : colSchema[col]? with
      | none => rw [hk] at htoks; cases htoks
      | some k =>
          rw [hk] at htoks
          cases ht2 : mapToks colSchema rows restSel with
          | error err => rw [ht2] at htoks; simp [Except.map] at htoks
          | ok ts =>
              rw [ht2] at htoks
              simp only [Except.map, Except.ok.injEq] at htoks
              have hcol : col < info2.length := hmem col (List.mem_cons_self _ _)
              have hinfo : info2[col]? = some (info2.get ⟨col, hcol⟩) := by
                rw [List.getElem?_eq_getElem hcol, List.get_eq_getElem]
              have hlst : (data.drop (idx * rows)).take rows =
                  decodeRun e k rows bs := by
                rw [hdata, ← htoks]
                show (decodeRun e k rows bs ++
                  decodeTokens e ts (bs.drop (rows * width k))).take rows = _
                conv in (List.take rows) => rw [← length_decodeRun e k rows bs]
                exact List.take_left _ _
              have hdata2 : data.drop ((idx + 1) * rows) =
                  decodeTokens e ts (bs.drop (rows * width k)) := by
                have harith : (idx + 1) * rows = idx * rows + rows := by ring
                rw [harith, ← List.drop_drop rows (idx * rows) data, hdata, ← htoks]
                show (decodeRun e k rows bs ++
                  decodeTokens e ts (bs.drop (rows * width k))).drop rows = _
                conv in (List.drop rows) => rw [← length_decodeRun e k rows bs]
                exact List.drop_left _ _
              have hmem2 : ∀ c ∈ restSel, c < info2.length :=
                fun c hc => hmem c (List.mem_cons_of_mem _ hc)
              by_cases hchar : k = DecodeKind.char16
              · subst hchar
                obtain ⟨vals, hvals⟩ := mapChr_ok ((data.drop (idx * rows)).take rows)
                  (by
                    intro v hv
                    rw [hlst] at hv
                    exact decodeRun_char16_mem e rows bs v hv)
                obtain ⟨out, hout⟩ := ih ts (bs.drop (rows * width DecodeKind.char16))
                  data (idx + 1) (dfSet df (info2.get ⟨col, hcol⟩).colName vals) ht2 hmem2 hdata2
                refine ⟨out, ?_⟩
                simp only [buildDfGo, hk, hinfo, eq_self_iff_true, if_true, hvals]
                exact hout
              · obtain ⟨out, hout⟩ := ih ts (bs.drop (rows * width k)) data (idx + 1)
                  (dfSet df (info2.get ⟨col, hcol⟩).colName
                    (((data.drop (idx * rows)).take rows).map Value.int))
                  ht2 hmem2 hdata2
                refine ⟨out, ?_⟩
                simp only [buildDfGo, hk, hinfo, if_neg hchar]
                exact hout

/-- Claim C1 (amended): decode over the flat unpack plan fails (with
struct.error, before any table is built) precisely when the buffer is
SHORTER than the byte length the plan implies; a buffer of exactly that
length or longer is decoded successfully, any trailing bytes silently
ignored - struct.unpack_from never rejects an over-long buffer, so the "no
silent truncation" half of the claim does not hold.  (Stated with no
declared-order list in effect, so the reorder step cannot interfere.) -/
theorem C1_amended (e : Endian) (nRows : Nat) (colSel : List Nat)
    (colSchema : List DecodeKind) (info2 : List SchemaRow) (i1 : Info1Parsed)
    (dtconvert : Bool) (raw : List Nat) (toks : List (DecodeKind × Nat))
    (htoks : mapToks colSchema nRows colSel = Except.ok toks)
    (hmem : ∀ c ∈ colSel, c < info2.length)
    (hrows : i1.nRows = nRows)
    (hnames : i1.columnNames = none) :
    ((unpackRawData (some (e, toks)) (some i1) (some colSel) colSchema info2
        dtconvert raw).isOk = true) ↔ calcsizeTokens toks ≤ raw.length := by
  by_cases h : calcsizeTokens toks ≤ raw.length
  · have hu : unpackFrom (e, toks) raw = some (decodeTokens e toks raw) := by
      simp [unpackFrom, h]
    obtain ⟨out, hout⟩ := buildDfGo_ok e nRows colSchema info2 colSel toks raw
      (decodeTokens e toks raw) 0 [] htoks hmem (by simp)
    have hred : unpackRawData (some (e, toks)) (some i1) (some colSel) colSchema
        info2 dtconvert raw = Except.ok (postProcess dtconvert out) := by
      simp only [unpackRawData, exceptBind_ok]
      rw [hu]
      simp only [exceptBind_ok]
      rw [hrows, hout]
      simp only [exceptBind_ok]
      rw [hnames]
    rw [hred]
    simp [Except.isOk, Except.toBool, h]
  · have hu : unpackFrom (e, toks) raw = none := by
      simp [unpackFrom, h]
    have hred : unpackRawData (some (e, toks)) (some i1) (some colSel) colSchema
        info2 dtconvert raw = Except.error PyErr.structError := by
      simp only [unpackRawData, exceptBind_ok]
      rw [hu]
      simp only [exceptBind_error]
    rw [hred]
    simp [Except.isOk, Except.toBool, h]


/-- Witness for C1_amended: scenario A's two-int32 one-row plan (8 implied
bytes) against a 9-byte buffer decodes successfully. -/
theorem C1_amended_witness :
    ((unpackRawData (some (Endian.big, [(DecodeKind.int32, 1), (DecodeKind.int32, 1)]))
        (some ⟨"u/OBJ1", "spec1", none, 1⟩) (some [0, 1])
        [DecodeKind.int32, DecodeKind.int32] sA0.info2 true
        ([0, 0, 0, 5, 0, 0, 0, 9, 77])).isOk = true) ↔
      calcsizeTokens ([(DecodeKind.int32, 1), (DecodeKind.int32, 1)]) ≤
        ([0, 0, 0, 5, 0, 0, 0, 9, 77] : List Nat).length :=
  C1_amended Endian.big 1 [0, 1] [DecodeKind.int32, DecodeKind.int32] sA0.info2
    ⟨"u/OBJ1", "spec1", none, 1⟩ true ([0, 0, 0, 5, 0, 0, 0, 9, 77])
    [(DecodeKind.int32, 1), (DecodeKind.int32, 1)] (by decide) (by decide) rfl rfl

/-- Claim C1 as stated is false: scenario A's plan implies 8 bytes, yet a
9-byte buffer is decoded successfully to the two-column table, its trailing
byte silently ignored, instead of failing with a decode-mismatch error. -/
theorem C1_counterexample :
    sA0.dtypeStruct = some (Endian.big, [(DecodeKind.int32, 1), (DecodeKind.int32, 1)]) ∧
    calcsizeTokens ([(DecodeKind.int32, 1), (DecodeKind.int32, 1)]) = 8 ∧
    unpackRawData sA0.dtypeStruct sA0.info1 sA0.colSelected sA0.colSchema sA0.info2 true
        ([0, 0, 0, 5, 0, 0, 0, 9, 77]) = Except.ok dfA := by decide

end Icoscp
